import Mathlib

/-
Verification of the `ParquetObjectWriter` adapter
(src/parquet/src/arrow/async_writer/store.rs).

The adapter itself is embedded directly from the source.  Its collaborators —
the buffered storage writer (`object_store::buffered::BufWriter`), the
destination path, the backend error value, the format-writer error domain and
the in-memory backend — are not under src/ and are modelled from the spec.
Async operations are embedded as explicit state-passing functions: each
`&mut self` method becomes a function returning its result together with the
updated adapter.
-/

namespace AsyncWriterStore

/-- Modelled from the spec: a destination path, "an opaque, backend-relative
identifier (hierarchical string key) naming the object to be created or
overwritten" (`object_store::path::Path`, not under src/). -/
structure Path where
  key : String
deriving DecidableEq

/-- Modelled from the spec: an opaque error value surfaced by the storage
backend, carried as an embedded cause inside the adapter's error
(`object_store::Error`, not under src/). -/
structure BackendError where
  cause : String
deriving DecidableEq

/-- Modelled from the spec: the state of the in-memory backend ("Backend /
Object Store: the remote or abstracted storage system addressed by
hierarchical paths"), as an association list from path keys to committed byte
contents, most recent commit first.  Bytes are modelled as natural numbers. -/
abbrev Store : Type := List (String × List Nat)

/-- Modelled from the spec: committing an object at a key overwrites any
previous object at that key. -/
def Store.put (s : Store) (key : String) (v : List Nat) : Store :=
  (key, v) :: s

/-- Modelled from the spec: a full read of the object at a key, returning
`none` when no object has been committed there. -/
def Store.get (s : Store) (key : String) : Option (List Nat) :=
  Option.map (fun e => e.2) (List.find? (fun e => e.1 == key) s)

/-- Modelled from the spec: the Buffered Storage Writer
(`object_store::buffered::BufWriter`, an external collaborator not under
src/): it is bound to one store handle and one destination path, "accepts
arbitrary-sized byte chunks, internally batches them", and on shutdown
"completes the multipart upload".  The internal buffer records all accepted
bytes in order.  Failures of successive backend calls are driven by a finite
oracle of scheduled outcomes (`none` = the call succeeds, `some e` = the call
fails with cause `e`); an exhausted oracle means every further call succeeds. -/
structure BufWriter where
  store : Store
  path : Path
  buffer : List Nat
  oracle : List (Option BackendError)
deriving DecidableEq

/-- Modelled from the spec: `BufWriter::new(store, path)` — a fresh writer
with default batching parameters bound to the store and path; no I/O is
performed and no failure is pending. -/
def BufWriter.new (store : Store) (path : Path) : BufWriter :=
  { store := store, path := path, buffer := [], oracle := [] }

/-- Modelled from the spec: `put(bytes) -> async result<(), backend_error>` —
"accept a chunk, possibly buffering internally".  On a scheduled backend
failure the chunk is not accepted and the cause is returned. -/
def BufWriter.put (w : BufWriter) (bs : List Nat) :
    Except BackendError Unit × BufWriter :=
  match w.oracle with
  | [] => (Except.ok (), { w with buffer := w.buffer ++ bs })
  | Option.none :: rest =>
      (Except.ok (), { w with buffer := w.buffer ++ bs, oracle := rest })
  | Option.some e :: rest => (Except.error e, { w with oracle := rest })

/-- Modelled from the spec: `shutdown() -> async result<(), backend_error>` —
"flush and commit; terminal operation".  On success the concatenation of all
accepted bytes is durably committed at the writer's path. -/
def BufWriter.shutdown (w : BufWriter) :
    Except BackendError Unit × BufWriter :=
  match w.oracle with
  | [] =>
      (Except.ok (), { w with store := Store.put w.store w.path.key w.buffer })
  | Option.none :: rest =>
      (Except.ok (),
        { w with store := Store.put w.store w.path.key w.buffer, oracle := rest })
  | Option.some e :: rest => (Except.error e, { w with oracle := rest })

/-- Modelled from the spec: the format-writer error domain
(`crate::errors::ParquetError`, not under src/), restricted to the single
kind the adapter produces: "an opaque external backend error carrying the
original error as an embedded cause" (`ParquetError::External(Box<dyn …>)`). -/
inductive ParquetError where
  | External (cause : BackendError)
deriving DecidableEq

/-- Embeds `ParquetObjectWriter` (store.rs lines 71-74): a struct holding
exactly one field `w : BufWriter` and nothing else. -/
structure ParquetObjectWriter where
  w : BufWriter
deriving DecidableEq

/-- Embeds `ParquetObjectWriter::from_buf_writer` (store.rs lines 85-87):
wraps an already-configured `BufWriter` as-is. -/
def ParquetObjectWriter.from_buf_writer (w : BufWriter) : ParquetObjectWriter :=
  { w := w }

/-- Embeds `ParquetObjectWriter::new` (store.rs lines 80-82):
`Self::from_buf_writer(BufWriter::new(store, path))`. -/
def ParquetObjectWriter.new (store : Store) (path : Path) : ParquetObjectWriter :=
  ParquetObjectWriter.from_buf_writer (BufWriter.new store path)

/-- Embeds `ParquetObjectWriter::into_inner` (store.rs lines 90-92):
consume the adapter and return the underlying `BufWriter`. -/
def ParquetObjectWriter.into_inner (self : ParquetObjectWriter) : BufWriter :=
  self.w

/-- Embeds `AsyncFileWriter::write` for `ParquetObjectWriter` (store.rs lines
96-103): `self.w.put(bs).await.map_err(|err| ParquetError::External(Box::new(err)))`,
with the in-place mutation of `self.w` made explicit in the returned adapter. -/
def ParquetObjectWriter.write (self : ParquetObjectWriter) (bs : List Nat) :
    Except ParquetError Unit × ParquetObjectWriter :=
  match BufWriter.put self.w bs with
  | (Except.ok u, w1) => (Except.ok u, { self with w := w1 })
  | (Except.error err, w1) =>
      (Except.error (ParquetError.External err), { self with w := w1 })

/-- Embeds `AsyncFileWriter::complete` for `ParquetObjectWriter` (store.rs
lines 105-112): `self.w.shutdown().await.map_err(|err| ParquetError::External(Box::new(err)))`. -/
def ParquetObjectWriter.complete (self : ParquetObjectWriter) :
    Except ParquetError Unit × ParquetObjectWriter :=
  match BufWriter.shutdown self.w with
  | (Except.ok u, w1) => (Except.ok u, { self with w := w1 })
  | (Except.error err, w1) =>
      (Except.error (ParquetError.External err), { self with w := w1 })

/-- Embeds `impl From<BufWriter> for ParquetObjectWriter` (store.rs lines
114-118): `Self::from_buf_writer(w)`. -/
def ParquetObjectWriter.from_impl (w : BufWriter) : ParquetObjectWriter :=
  ParquetObjectWriter.from_buf_writer w

/-- Sequential driver: forward the chunks in order through `write`, stopping
at the first failure (a failed append terminates the stream, spec section 7). -/
def ParquetObjectWriter.writeAll (self : ParquetObjectWriter)
    (chunks : List (List Nat)) :
    Except ParquetError Unit × ParquetObjectWriter :=
  match chunks with
  | [] => (Except.ok (), self)
  | c :: cs =>
    match ParquetObjectWriter.write self c with
    | (Except.ok _, s1) => ParquetObjectWriter.writeAll s1 cs
    | (Except.error e, s1) => (Except.error e, s1)

/-- Observation: the bytes of the object at the adapter's destination path in
the adapter's current view of the backend. -/
def ParquetObjectWriter.objectAt (self : ParquetObjectWriter) :
    Option (List Nat) :=
  Store.get self.w.store self.w.path.key

/-- Observation: run `complete` and, when it succeeds, read back the object
at the destination path; `none` when the commit failed. -/
def ParquetObjectWriter.completeAndRead (self : ParquetObjectWriter) :
    Option (List Nat) :=
  match ParquetObjectWriter.complete self with
  | (Except.ok _, s1) => ParquetObjectWriter.objectAt s1
  | (Except.error _, _) => Option.none

/-- End-to-end run: construct the adapter at `path` over `store`, write the
chunks in order, then finalize; the committed object bytes when every call
succeeded, `none` otherwise. -/
def runAdapter (store : Store) (path : Path) (chunks : List (List Nat)) :
    Option (List Nat) :=
  match ParquetObjectWriter.writeAll (ParquetObjectWriter.new store path) chunks with
  | (Except.ok _, s1) => ParquetObjectWriter.completeAndRead s1
  | (Except.error _, _) => Option.none

/-- Specification-side constructor for the refinement claim, following the
spec's words: "creates a new Buffered Storage Writer configured with default
batching parameters, and wraps it". -/
def specConstructFromStorePath (store : Store) (path : Path) :
    ParquetObjectWriter :=
  ParquetObjectWriter.from_buf_writer (BufWriter.new store path)

/-- Error translation performed by the adapter on both operations:
`map_err(|err| ParquetError::External(Box::new(err)))`. -/
def wrapExternal : Except BackendError Unit → Except ParquetError Unit
  | Except.ok u => Except.ok u
  | Except.error e => Except.error (ParquetError.External e)

theorem wrapExternal_ok_iff (r : Except BackendError Unit) :
    wrapExternal r = Except.ok () ↔ r = Except.ok () := by
  cases r with
  | ok u => cases u; simp [wrapExternal]
  | error e => simp [wrapExternal]

theorem put_store (w : BufWriter) (bs : List Nat) :
    (BufWriter.put w bs).2.store = w.store := by
  rcases w with ⟨s, p, b, o⟩
  cases o with
  | nil => rfl
  | cons head rest => cases head <;> rfl

theorem put_path (w : BufWriter) (bs : List Nat) :
    (BufWriter.put w bs).2.path = w.path := by
  rcases w with ⟨s, p, b, o⟩
  cases o with
  | nil => rfl
  | cons head rest => cases head <;> rfl

theorem put_ok_buffer (w : BufWriter) (bs : List Nat)
    (h : (BufWriter.put w bs).1 = Except.ok ()) :
    (BufWriter.put w bs).2.buffer = w.buffer ++ bs := by
  rcases w with ⟨s, p, b, o⟩
  cases o with
  | nil => rfl
  | cons head rest =>
    cases head with
    | none => rfl
    | some e => simp [BufWriter.put] at h

theorem shutdown_path (w : BufWriter) :
    (BufWriter.shutdown w).2.path = w.path := by
  rcases w with ⟨s, p, b, o⟩
  cases o with
  | nil => rfl
  | cons head rest => cases head <;> rfl

theorem shutdown_ok_store (w : BufWriter)
    (h : (BufWriter.shutdown w).1 = Except.ok ()) :
    (BufWriter.shutdown w).2.store = Store.put w.store w.path.key w.buffer := by
  rcases w with ⟨s, p, b, o⟩
  cases o with
  | nil => rfl
  | cons head rest =>
    cases head with
    | none => rfl
    | some e => simp [BufWriter.shutdown] at h

theorem get_put_self (s : Store) (k : String) (v : List Nat) :
    Store.get (Store.put s k v) k = Option.some v := by
  simp [Store.get, Store.put, List.find?]

theorem write_fst_eq (self : ParquetObjectWriter) (bs : List Nat) :
    (ParquetObjectWriter.write self bs).1
      = wrapExternal (BufWriter.put self.w bs).1 := by
  cases h : BufWriter.put self.w bs with
  | mk r w1 =>
    cases r with
    | ok u => simp [ParquetObjectWriter.write, h, wrapExternal]
    | error e => simp [ParquetObjectWriter.write, h, wrapExternal]

theorem write_snd_eq (self : ParquetObjectWriter) (bs : List Nat) :
    (ParquetObjectWriter.write self bs).2.w = (BufWriter.put self.w bs).2 := by
  cases h : BufWriter.put self.w bs with
  | mk r w1 =>
    cases r with
    | ok u => simp [ParquetObjectWriter.write, h]
    | error e => simp [ParquetObjectWriter.write, h]

theorem complete_fst_eq (self : ParquetObjectWriter) :
    (ParquetObjectWriter.complete self).1
      = wrapExternal (BufWriter.shutdown self.w).1 := by
  cases h : BufWriter.shutdown self.w with
  | mk r w1 =>
    cases r with
    | ok u => simp [ParquetObjectWriter.complete, h, wrapExternal]
    | error e => simp [ParquetObjectWriter.complete, h, wrapExternal]

theorem complete_snd_eq (self : ParquetObjectWriter) :
    (ParquetObjectWriter.complete self).2.w = (BufWriter.shutdown self.w).2 := by
  cases h : BufWriter.shutdown self.w with
  | mk r w1 =>
    cases r with
    | ok u => simp [ParquetObjectWriter.complete, h]
    | error e => simp [ParquetObjectWriter.complete, h]

theorem writeAll_store (chunks : List (List Nat)) :
    ∀ self : ParquetObjectWriter,
      (ParquetObjectWriter.writeAll self chunks).2.w.store = self.w.store := by
  induction chunks with
  | nil => intro self; rfl
  | cons c cs ih =>
    intro self
    cases h : ParquetObjectWriter.write self c with
    | mk r s1 =>
      have hs1 : s1.w = (BufWriter.put self.w c).2 := by
        have h2 := write_snd_eq self c
        rw [h] at h2
        exact h2
      cases r with
      | ok u =>
        have hrw : ParquetObjectWriter.writeAll self (c :: cs)
            = ParquetObjectWriter.writeAll s1 cs := by
          simp [ParquetObjectWriter.writeAll, h]
        rw [hrw, ih s1, hs1, put_store]
      | error e =>
        have hrw : ParquetObjectWriter.writeAll self (c :: cs)
            = (Except.error e, s1) := by
          simp [ParquetObjectWriter.writeAll, h]
        rw [hrw]
        show s1.w.store = self.w.store
        rw [hs1, put_store]

theorem writeAll_path (chunks : List (List Nat)) :
    ∀ self : ParquetObjectWriter,
      (ParquetObjectWriter.writeAll self chunks).2.w.path = self.w.path := by
  induction chunks with
  | nil => intro self; rfl
  | cons c cs ih =>
    intro self
    cases h : ParquetObjectWriter.write self c with
    | mk r s1 =>
      have hs1 : s1.w = (BufWriter.put self.w c).2 := by
        have h2 := write_snd_eq self c
        rw [h] at h2
        exact h2
      cases r with
      | ok u =>
        have hrw : ParquetObjectWriter.writeAll self (c :: cs)
            = ParquetObjectWriter.writeAll s1 cs := by
          simp [ParquetObjectWriter.writeAll, h]
        rw [hrw, ih s1, hs1, put_path]
      | error e =>
        have hrw : ParquetObjectWriter.writeAll self (c :: cs)
            = (Except.error e, s1) := by
          simp [ParquetObjectWriter.writeAll, h]
        rw [hrw]
        show s1.w.path = self.w.path
        rw [hs1, put_path]

theorem writeAll_ok_buffer (chunks : List (List Nat)) :
    ∀ self : ParquetObjectWriter,
      (ParquetObjectWriter.writeAll self chunks).1 = Except.ok () →
      (ParquetObjectWriter.writeAll self chunks).2.w.buffer
        = self.w.buffer ++ chunks.flatten := by
  induction chunks with
  | nil => intro self h; simp [ParquetObjectWriter.writeAll]
  | cons c cs ih =>
    intro self hok
    cases h : ParquetObjectWriter.write self c with
    | mk r s1 =>
      have hs1 : s1.w = (BufWriter.put self.w c).2 := by
        have h2 := write_snd_eq self c
        rw [h] at h2
        exact h2
      cases r with
      | ok u =>
        cases u
        have hrw : ParquetObjectWriter.writeAll self (c :: cs)
            = ParquetObjectWriter.writeAll s1 cs := by
          simp [ParquetObjectWriter.writeAll, h]
        rw [hrw] at hok ⊢
        have hput : (BufWriter.put self.w c).1 = Except.ok () := by
          have h2 := write_fst_eq self c
          rw [h] at h2
          exact (wrapExternal_ok_iff _).mp h2.symm
        have hb1 : s1.w.buffer = self.w.buffer ++ c := by
          rw [hs1, put_ok_buffer _ _ hput]
        rw [ih s1 hok, hb1]
        simp [List.append_assoc]
      | error e =>
        have hrw : ParquetObjectWriter.writeAll self (c :: cs)
            = (Except.error e, s1) := by
          simp [ParquetObjectWriter.writeAll, h]
        rw [hrw] at hok
        simp at hok

theorem complete_ok_objectAt (self : ParquetObjectWriter)
    (h : (ParquetObjectWriter.complete self).1 = Except.ok ()) :
    ParquetObjectWriter.objectAt (ParquetObjectWriter.complete self).2
      = Option.some self.w.buffer := by
  have hw := complete_snd_eq self
  have hs : (BufWriter.shutdown self.w).1 = Except.ok () := by
    have h2 := complete_fst_eq self
    rw [h2] at h
    exact (wrapExternal_ok_iff _).mp h
  unfold ParquetObjectWriter.objectAt
  rw [hw, shutdown_ok_store _ hs, shutdown_path]
  exact get_put_self _ _ _

theorem put_oracle_nil (w : BufWriter) (bs : List Nat) (h : w.oracle = []) :
    BufWriter.put w bs
      = (Except.ok (), { w with buffer := w.buffer ++ bs }) := by
  rcases w with ⟨s, p, b, o⟩
  cases h
  rfl

theorem shutdown_oracle_nil (w : BufWriter) (h : w.oracle = []) :
    BufWriter.shutdown w
      = (Except.ok (),
          { w with store := Store.put w.store w.path.key w.buffer }) := by
  rcases w with ⟨s, p, b, o⟩
  cases h
  rfl

theorem write_oracle_nil (self : ParquetObjectWriter) (bs : List Nat)
    (h : self.w.oracle = []) :
    ParquetObjectWriter.write self bs
      = (Except.ok (),
          ParquetObjectWriter.from_buf_writer
            { self.w with buffer := self.w.buffer ++ bs }) := by
  have hp := put_oracle_nil self.w bs h
  simp [ParquetObjectWriter.write, hp, ParquetObjectWriter.from_buf_writer]

theorem writeAll_oracle_nil (chunks : List (List Nat)) :
    ∀ self : ParquetObjectWriter, self.w.oracle = [] →
      ParquetObjectWriter.writeAll self chunks
        = (Except.ok (),
            ParquetObjectWriter.from_buf_writer
              { self.w with buffer := self.w.buffer ++ chunks.flatten }) := by
  induction chunks with
  | nil =>
    intro self h
    rcases self with ⟨⟨s, p, b, o⟩⟩
    simp [ParquetObjectWriter.writeAll, ParquetObjectWriter.from_buf_writer]
  | cons c cs ih =>
    intro self h
    have hw := write_oracle_nil self c h
    have h1 : ({ self.w with buffer := self.w.buffer ++ c } : BufWriter).oracle = [] := h
    have ihs := ih (ParquetObjectWriter.from_buf_writer
      { self.w with buffer := self.w.buffer ++ c }) h1
    simp [ParquetObjectWriter.writeAll, hw, ParquetObjectWriter.from_buf_writer] at ihs ⊢
    exact ihs

theorem completeAndRead_oracle_nil (self : ParquetObjectWriter)
    (h : self.w.oracle = []) :
    ParquetObjectWriter.completeAndRead self = Option.some self.w.buffer := by
  have hs := shutdown_oracle_nil self.w h
  simp [ParquetObjectWriter.completeAndRead, ParquetObjectWriter.complete, hs,
    ParquetObjectWriter.objectAt, get_put_self]

theorem runAdapter_concat (store : Store) (path : Path)
    (chunks : List (List Nat)) :
    runAdapter store path chunks = Option.some chunks.flatten := by
  have hw := writeAll_oracle_nil chunks (ParquetObjectWriter.new store path) rfl
  unfold runAdapter
  rw [hw]
  show ParquetObjectWriter.completeAndRead
      (ParquetObjectWriter.from_buf_writer
        { (ParquetObjectWriter.new store path).w with
            buffer := (ParquetObjectWriter.new store path).w.buffer ++ chunks.flatten })
    = Option.some chunks.flatten
  rw [completeAndRead_oracle_nil _ rfl]
  simp [ParquetObjectWriter.new, BufWriter.new,
    ParquetObjectWriter.from_buf_writer]

theorem buffer_append_nil (w : BufWriter) :
    ({ w with buffer := w.buffer ++ [] } : BufWriter) = w := by
  rcases w with ⟨s, p, b, o⟩
  simp

/-- C1: for every sequence of chunks written, in order, through the adapter
with each write succeeding, followed by a successful complete, the byte
content of the object committed at the adapter's destination path equals the
concatenation of the chunks. -/
theorem c1_write_complete_commits_concatenation (w : BufWriter)
    (chunks : List (List Nat)) (hbuf : w.buffer = [])
    (hw : (ParquetObjectWriter.writeAll
        (ParquetObjectWriter.from_buf_writer w) chunks).1 = Except.ok ())
    (hc : (ParquetObjectWriter.complete
        (ParquetObjectWriter.writeAll
          (ParquetObjectWriter.from_buf_writer w) chunks).2).1 = Except.ok ()) :
    ParquetObjectWriter.objectAt
        (ParquetObjectWriter.complete
          (ParquetObjectWriter.writeAll
            (ParquetObjectWriter.from_buf_writer w) chunks).2).2
      = Option.some chunks.flatten := by
  rw [complete_ok_objectAt _ hc]
  rw [writeAll_ok_buffer chunks _ hw]
  simp [ParquetObjectWriter.from_buf_writer, hbuf]

/-- Witness for C1 at the spec's example scenario: writing the chunks "abc"
and "def" and finalizing at path "test" commits the bytes of "abcdef". -/
theorem c1_write_complete_commits_concatenation_witness :
    ParquetObjectWriter.objectAt
        (ParquetObjectWriter.complete
          (ParquetObjectWriter.writeAll
            (ParquetObjectWriter.from_buf_writer (BufWriter.new [] ⟨"test"⟩))
            [[97, 98, 99], [100, 101, 102]]).2).2
      = Option.some [97, 98, 99, 100, 101, 102] :=
  c1_write_complete_commits_concatenation (BufWriter.new [] ⟨"test"⟩)
    [[97, 98, 99], [100, 101, 102]] rfl rfl rfl

/-- C2: a write call succeeds exactly when the single underlying put of the
same chunk succeeds; a put failure is returned wrapped as the external
backend error carrying the original cause; and the adapter's resulting state
is exactly the state after that one put — the chunk is never dropped,
retried or suppressed. -/
theorem c2_write_propagates_put (self : ParquetObjectWriter) (bs : List Nat) :
    ((ParquetObjectWriter.write self bs).1 = Except.ok ()
        ↔ (BufWriter.put self.w bs).1 = Except.ok ())
    ∧ (ParquetObjectWriter.write self bs).1
        = wrapExternal (BufWriter.put self.w bs).1
    ∧ (ParquetObjectWriter.write self bs).2.w = (BufWriter.put self.w bs).2 := by
  refine ⟨?_, write_fst_eq self bs, write_snd_eq self bs⟩
  rw [write_fst_eq self bs]
  exact wrapExternal_ok_iff _

/-- C3: a complete call invokes exactly the inner writer's shutdown: it
succeeds exactly when shutdown succeeds, a shutdown failure is returned
wrapped as the external backend error carrying the original cause, and the
resulting state is the state after that one shutdown. -/
theorem c3_complete_propagates_shutdown (self : ParquetObjectWriter) :
    ((ParquetObjectWriter.complete self).1 = Except.ok ()
        ↔ (BufWriter.shutdown self.w).1 = Except.ok ())
    ∧ (ParquetObjectWriter.complete self).1
        = wrapExternal (BufWriter.shutdown self.w).1
    ∧ (ParquetObjectWriter.complete self).2.w
        = (BufWriter.shutdown self.w).2 := by
  refine ⟨?_, complete_fst_eq self, complete_snd_eq self⟩
  rw [complete_fst_eq self]
  exact wrapExternal_ok_iff _

/-- C4: constructing from a store handle and a path equals wrapping a fresh
default Buffered Storage Writer bound to that store and path; construction
performs no I/O — the writer starts with the given store untouched, the
given path and an empty buffer. -/
theorem c4_new_eq_spec_construct (store : Store) (path : Path) :
    ParquetObjectWriter.new store path = specConstructFromStorePath store path
    ∧ (ParquetObjectWriter.new store path).w.store = store
    ∧ (ParquetObjectWriter.new store path).w.path = path
    ∧ (ParquetObjectWriter.new store path).w.buffer = [] :=
  ⟨rfl, rfl, rfl, rfl⟩

/-- C5: into_inner returns the inner Buffered Storage Writer unchanged:
into_inner (from_buf_writer w) = w, with no I/O performed. -/
theorem c5_into_inner_round_trip (w : BufWriter) :
    ParquetObjectWriter.into_inner (ParquetObjectWriter.from_buf_writer w)
      = w :=
  rfl

/-- C6: after a failed write the adapter records no failure flag of its own:
a subsequent complete behaves exactly as complete on an adapter freshly
wrapped around the same inner writer, and its outcome is exactly the wrapped
outcome of the inner shutdown. -/
theorem c6_complete_after_failed_write (self : ParquetObjectWriter)
    (bs : List Nat) (e : ParquetError)
    (h : (ParquetObjectWriter.write self bs).1 = Except.error e) :
    ParquetObjectWriter.complete (ParquetObjectWriter.write self bs).2
        = ParquetObjectWriter.complete
            (ParquetObjectWriter.from_buf_writer
              (ParquetObjectWriter.into_inner
                (ParquetObjectWriter.write self bs).2))
    ∧ (ParquetObjectWriter.complete (ParquetObjectWriter.write self bs).2).1
        = wrapExternal
            (BufWriter.shutdown (ParquetObjectWriter.write self bs).2.w).1 :=
  ⟨rfl, complete_fst_eq _⟩

/-- Witness for C6: a writer whose backend rejects the first call fails the
write, and the subsequent complete is still driven solely by the inner
writer's state. -/
theorem c6_complete_after_failed_write_witness :
    ParquetObjectWriter.complete
        (ParquetObjectWriter.write
          (ParquetObjectWriter.from_buf_writer
            ⟨[], ⟨"p"⟩, [], [Option.some ⟨"boom"⟩]⟩) [0]).2
        = ParquetObjectWriter.complete
            (ParquetObjectWriter.from_buf_writer
              (ParquetObjectWriter.into_inner
                (ParquetObjectWriter.write
                  (ParquetObjectWriter.from_buf_writer
                    ⟨[], ⟨"p"⟩, [], [Option.some ⟨"boom"⟩]⟩) [0]).2))
    ∧ (ParquetObjectWriter.complete
        (ParquetObjectWriter.write
          (ParquetObjectWriter.from_buf_writer
            ⟨[], ⟨"p"⟩, [], [Option.some ⟨"boom"⟩]⟩) [0]).2).1
        = wrapExternal
            (BufWriter.shutdown
              (ParquetObjectWriter.write
                (ParquetObjectWriter.from_buf_writer
                  ⟨[], ⟨"p"⟩, [], [Option.some ⟨"boom"⟩]⟩) [0]).2.w).1 :=
  c6_complete_after_failed_write
    (ParquetObjectWriter.from_buf_writer
      ⟨[], ⟨"p"⟩, [], [Option.some ⟨"boom"⟩]⟩)
    [0] (ParquetError.External ⟨"boom"⟩) rfl

/-- C7: two runs from the same store and path with identical chunk sequences
commit byte-identical objects; in this deterministic backend model the
committed bytes are exactly the concatenation of the chunks. -/
theorem c7_two_run_determinism (store : Store) (path : Path)
    (chunks1 chunks2 : List (List Nat)) (h : chunks1 = chunks2) :
    runAdapter store path chunks1 = runAdapter store path chunks2
    ∧ runAdapter store path chunks1 = Option.some chunks1.flatten := by
  subst h
  exact ⟨rfl, runAdapter_concat _ _ _⟩

/-- Witness for C7 at a concrete store, path and chunk sequence. -/
theorem c7_two_run_determinism_witness :
    runAdapter [] ⟨"test"⟩ [[1], [2, 3]] = runAdapter [] ⟨"test"⟩ [[1], [2, 3]]
    ∧ runAdapter [] ⟨"test"⟩ [[1], [2, 3]] = Option.some [1, 2, 3] :=
  c7_two_run_determinism [] ⟨"test"⟩ [[1], [2, 3]] [[1], [2, 3]] rfl

/-- C8: every write call — succeeding or failing — leaves the destination
path and the backend binding unchanged and forwards the chunk unmodified to
exactly one put of the inner writer, so the inner writer's buffered state is
the only state it changes; when the write succeeds, exactly the chunk is
appended to the inner buffer. -/
theorem c8_write_frame (self : ParquetObjectWriter) (bs : List Nat) :
    (ParquetObjectWriter.write self bs).2.w.path = self.w.path
    ∧ (ParquetObjectWriter.write self bs).2.w.store = self.w.store
    ∧ (ParquetObjectWriter.write self bs).2.w = (BufWriter.put self.w bs).2
    ∧ ((ParquetObjectWriter.write self bs).1 = Except.ok () →
        (ParquetObjectWriter.write self bs).2.w.buffer
          = self.w.buffer ++ bs) := by
  refine ⟨?_, ?_, write_snd_eq self bs, ?_⟩
  · rw [write_snd_eq, put_path]
  · rw [write_snd_eq, put_store]
  · intro h
    have hput : (BufWriter.put self.w bs).1 = Except.ok () := by
      rw [write_fst_eq self bs] at h
      exact (wrapExternal_ok_iff _).mp h
    rw [write_snd_eq, put_ok_buffer _ _ hput]

/-- Witness for C8 at a concrete adapter and chunk, with the success
hypothesis of the buffer conjunct discharged by computation. -/
theorem c8_write_frame_witness :
    (ParquetObjectWriter.write
        (ParquetObjectWriter.from_buf_writer (BufWriter.new [] ⟨"t"⟩))
        [7, 8]).2.w.path
        = (ParquetObjectWriter.from_buf_writer (BufWriter.new [] ⟨"t"⟩)).w.path
    ∧ (ParquetObjectWriter.write
        (ParquetObjectWriter.from_buf_writer (BufWriter.new [] ⟨"t"⟩))
        [7, 8]).2.w.store
        = (ParquetObjectWriter.from_buf_writer (BufWriter.new [] ⟨"t"⟩)).w.store
    ∧ (ParquetObjectWriter.write
        (ParquetObjectWriter.from_buf_writer (BufWriter.new [] ⟨"t"⟩))
        [7, 8]).2.w
        = (BufWriter.put
            (ParquetObjectWriter.from_buf_writer (BufWriter.new [] ⟨"t"⟩)).w
            [7, 8]).2
    ∧ (ParquetObjectWriter.write
        (ParquetObjectWriter.from_buf_writer (BufWriter.new [] ⟨"t"⟩))
        [7, 8]).2.w.buffer
        = (ParquetObjectWriter.from_buf_writer
            (BufWriter.new [] ⟨"t"⟩)).w.buffer ++ [7, 8] := by
  have h := c8_write_frame
    (ParquetObjectWriter.from_buf_writer (BufWriter.new [] ⟨"t"⟩)) [7, 8]
  exact ⟨h.1, h.2.1, h.2.2.1, h.2.2.2 rfl⟩

/-- C9: the generic conversion from a BufWriter behaves identically to
from_buf_writer. -/
theorem c9_from_impl_eq_from_buf_writer (w : BufWriter) :
    ParquetObjectWriter.from_impl w = ParquetObjectWriter.from_buf_writer w :=
  rfl

/-- C10: writing an empty chunk when the inner writer has no pending failure
succeeds and does not change the bytes committed by a subsequent complete. -/
theorem c10_empty_write_identity (self : ParquetObjectWriter)
    (h : self.w.oracle = []) :
    (ParquetObjectWriter.write self []).1 = Except.ok ()
    ∧ ParquetObjectWriter.completeAndRead (ParquetObjectWriter.write self []).2
        = ParquetObjectWriter.completeAndRead self := by
  have hw := write_oracle_nil self [] h
  constructor
  · rw [hw]
  · rw [hw]
    show ParquetObjectWriter.completeAndRead
        (ParquetObjectWriter.from_buf_writer
          { self.w with buffer := self.w.buffer ++ [] })
      = ParquetObjectWriter.completeAndRead self
    rw [buffer_append_nil self.w]
    rfl

/-- Witness for C10: an empty write on a healthy writer with a non-empty
buffer succeeds and leaves the committed bytes unchanged. -/
theorem c10_empty_write_identity_witness :
    (ParquetObjectWriter.write
        (ParquetObjectWriter.from_buf_writer
          ⟨[("old", [5])], ⟨"t"⟩, [9], []⟩) []).1 = Except.ok ()
    ∧ ParquetObjectWriter.completeAndRead
        (ParquetObjectWriter.write
          (ParquetObjectWriter.from_buf_writer
            ⟨[("old", [5])], ⟨"t"⟩, [9], []⟩) []).2
        = ParquetObjectWriter.completeAndRead
            (ParquetObjectWriter.from_buf_writer
              ⟨[("old", [5])], ⟨"t"⟩, [9], []⟩) :=
  c10_empty_write_identity
    (ParquetObjectWriter.from_buf_writer ⟨[("old", [5])], ⟨"t"⟩, [9], []⟩) rfl

end AsyncWriterStore
